import Mathlib

/-
Verification of the slot-booking client (ClientInterface component, two
variants: src/src/components/ClientInterface.jsx and the unnamed variant
src/unnamed/part_000).  The component is embedded shallowly: React state
becomes a record, each handler becomes a state transformer parameterized
by the outcome of its remote calls, and the render function becomes a
total function from state to an abstract screen.  JavaScript string
operations used by the code (includes, toUpperCase, split, parseInt,
template literals, localeCompare) are modelled explicitly below.
-/

namespace ClientInterface

/-- JavaScript String.prototype.includes, on the underlying character
lists (code-point comparison). -/
def jsIncludes (s sub : String) : Bool := decide (sub.data <:+: s.data)

/-- JavaScript String.prototype.toUpperCase restricted to ASCII
(sufficient for the strings the component manipulates). -/
def jsToUpper (s : String) : String := String.mk (s.data.map Char.toUpper)

/-- The test time.toUpperCase().includes('AM') || time.toUpperCase().includes('PM')
from formatTimeToStandard (ClientInterface.jsx line 29). -/
def hasAmPm (t : String) : Bool :=
  jsIncludes (jsToUpper t) "AM" || jsIncludes (jsToUpper t) "PM"

/-- JavaScript parseInt(s, 10): skip leading whitespace, optional sign,
then the longest run of decimal digits; NaN (modelled as none) when no
digit is found. -/
def jsParseInt (s : String) : Option Int :=
  let cs := s.data.dropWhile fun c => c = ' ' || c = '\t' || c = '\n' || c = '\r'
  let signed : Int × List Char :=
    match cs with
    | '-' :: rest => (-1, rest)
    | '+' :: rest => (1, rest)
    | _ => (1, cs)
  let ds := signed.2.takeWhile Char.isDigit
  if ds.isEmpty then none
  else some (signed.1 * (ds.foldl (fun n c => 10 * n + (c.toNat - 48)) (0 : Nat) : Nat))

/-- JavaScript hour % 12 || 12 (line 35): NaN % 12 is NaN and NaN is
falsy, 0 is falsy, so both yield 12; otherwise the truncated remainder
(sign of the dividend, as the JavaScript % operator). -/
def jsHour12 (h : Option Int) : Int :=
  match h with
  | none => 12
  | some v => if v.tmod 12 = 0 then 12 else v.tmod 12

/-- JavaScript hour >= 12 ? 'PM' : 'AM' (line 34); any comparison with
NaN is false. -/
def jsAmPm (h : Option Int) : String :=
  match h with
  | none => "AM"
  | some v => if 12 ≤ v then "PM" else "AM"

/-- Template-literal interpolation of a possibly-undefined value. -/
def jsStr (m : Option String) : String := m.getD "undefined"

/-- formatTimeToStandard (ClientInterface.jsx lines 26-37).  The input
is an Option to cover a missing (undefined) argument; the undefined and
empty-string cases both take the falsy branch and return the empty
string.  Destructuring const [hours, minutes] = time.split(':') makes
hours the first piece (split always yields at least one piece) and
minutes the second piece or undefined. -/
def formatTimeToStandard (time : Option String) : String :=
  match time with
  | none => ""
  | some t =>
    if t = "" then ""
    else if hasAmPm t then t
    else
      let parts := t.splitOn ":"
      let hour := jsParseInt (parts.headD "")
      toString (jsHour12 hour) ++ ":" ++ jsStr (parts.get? 1) ++ " " ++ jsAmPm hour

/-- A slot row as returned by the store: id, date, raw time string and
status.  The src/src variant never reads status (its backend returns
bookable rows); the part_000 variant filters on it. -/
structure Slot where
  id : String
  date : String
  time : String
  status : String
deriving DecidableEq, Inhabited

/-- The result of a.time.localeCompare(b.time), modelled as code-point
comparison: negative, zero or positive. -/
def strCmpInt (x y : String) : Int :=
  if x < y then -1 else if y < x then 1 else 0

/-- The sort comparator of fetchAvailableSlots (lines 51-55): the
numeric difference new Date(a.date) - new Date(b.date) when nonzero,
otherwise a.time.localeCompare(b.time).  Date parsing is abstracted by
the environment function dp giving the timestamp of a well-formed date
string. -/
def slotCmp (dp : String → Int) (a b : Slot) : Int :=
  let d := dp a.date - dp b.date
  if d ≠ 0 then d else strCmpInt a.time b.time

/-- The ordering induced by the comparator: a precedes-or-ties b exactly
when the comparator is nonpositive. -/
def slotLE (dp : String → Int) (a b : Slot) : Bool :=
  decide (slotCmp dp a b ≤ 0)

/-- data.sort(comparator): the array sorted consistently with the
comparator (Array.prototype.sort is a stable sort honouring a consistent
comparator). -/
def sortSlots (dp : String → Int) (data : List Slot) : List Slot :=
  data.mergeSort (slotLE dp)

/-- The userInfo state object (lines 7-12): first name, last name,
email, and the scholarship/zoom checkbox. -/
structure UserInfo where
  firstName : String
  lastName : String
  email : String
  isScholarship : Bool
deriving DecidableEq, Inhabited

/-- The React state of the component: availableSlots, selectedSlot,
userInfo, bookingComplete, isLoading, errorMessage and the
refreshInterval state variable (which stores the interval id and is
never reset to null by the code). -/
structure CState where
  availableSlots : List Slot
  selectedSlot : Option Slot
  userInfo : UserInfo
  bookingComplete : Bool
  isLoading : Bool
  errorMessage : String
  refreshInterval : Option Nat
deriving DecidableEq, Inhabited

/-- Outcome of the GET request performed by fetchAvailableSlots: ok with
decoded rows, or a thrown error (transport failure, non-ok response, or
decode failure) carrying the message. -/
inductive FetchResult where
  | ok (data : List Slot)
  | err (msg : String)
deriving DecidableEq

/-- fetchAvailableSlots of ClientInterface.jsx (lines 40-64) as a state
transformer given the request outcome: when showLoading, isLoading is
set for the duration and reset in the finally block; on success the
sorted data replaces availableSlots; on failure errorMessage is set and
availableSlots is untouched. -/
def fetchAvailableSlots (dp : String → Int) (showLoading : Bool)
    (res : FetchResult) (s : CState) : CState :=
  let s1 := if showLoading then { s with isLoading := true } else s
  let s2 :=
    match res with
    | .ok data => { s1 with availableSlots := sortSlots dp data }
    | .err m => { s1 with errorMessage := "Error loading available slots: " ++ m }
  if showLoading then { s2 with isLoading := false } else s2

/-- handleSelectSlot (lines 111-113): stores the given slot as the
selection, with no check of any kind. -/
def handleSelectSlot (sl : Slot) (s : CState) : CState :=
  { s with selectedSlot := some sl }

/-- The onClick of a slot button (lines 305-312): the buttons are
rendered by mapping over the current snapshot, so the slot passed to
handleSelectSlot is the element of availableSlots at the clicked
index. -/
def selectSlotFromList (s : CState) (i : Nat) : CState :=
  match s.availableSlots.get? i with
  | some sl => handleSelectSlot sl s
  | none => s

/-- The locale/date presentation environment used by sendEmails:
getDayOfWeek, getFormattedDate, toLocaleDateString month name, and
getDate, all abstracted over the date string. -/
structure DateEnv where
  dayOfWeek : String → String
  formattedDate : String → String
  monthName : String → String
  dayNum : String → Int

/-- The fixed Google Apps Script endpoint (lines 22-23) that both email
POSTs target. -/
def googleScriptUrl : String :=
  "https://script.google.com/macros/s/AKfycbxDd7vlYTXfnRCwdEziEF8zMwDdF5EshTcRMii_Lnv-hWH1AFqCLqU_5qgPFlHsNkNR5g/exec"

/-- One notification request: the URL posted to and the JSON body as a
key-value list in source order. -/
structure EmailMsg where
  url : String
  payload : List (String × String)
deriving DecidableEq, Inhabited

/-- The two notification requests built by sendEmails (lines 116-155) in
issue order: first the owner alert (type owner), then the client
confirmation, whose type field is the literal string scholarship
regardless of userInfo.isScholarship. -/
def sendEmailsMessages (env : DateEnv) (u : UserInfo) (sl : Slot) : List EmailMsg :=
  let fullName := u.firstName ++ " " ++ u.lastName
  let standardTime := formatTimeToStandard (some sl.time)
  [ { url := googleScriptUrl,
      payload := [("type", "owner"),
                  ("slot_date", env.formattedDate sl.date),
                  ("slot_time", standardTime),
                  ("client_name", fullName),
                  ("client_email", u.email)] },
    { url := googleScriptUrl,
      payload := [("type", "scholarship"),
                  ("first_name", u.firstName),
                  ("to_email", u.email),
                  ("day_of_week", env.dayOfWeek sl.date),
                  ("month", env.monthName sl.date),
                  ("day", toString (env.dayNum sl.date)),
                  ("time", standardTime)] } ]

/-- Outcome of the two awaited email POSTs inside sendEmails: both
resolve, the first rejects (so the second is never issued), or the
second rejects. -/
inductive NotifyOutcome where
  | delivered
  | failFirst (msg : String)
  | failSecond (msg : String)
deriving DecidableEq

/-- sendEmails (lines 116-162): returns the requests actually issued and
the function's return value.  The try/catch absorbs any rejection
(console.error only), so the return value is true on every path and the
function never throws into handleBooking. -/
def sendEmails (env : DateEnv) (u : UserInfo) (sl : Slot)
    (o : NotifyOutcome) : List EmailMsg × Bool :=
  let msgs := sendEmailsMessages env u sl
  match o with
  | .delivered => (msgs, true)
  | .failFirst _ => (msgs.take 1, true)
  | .failSecond _ => (msgs, true)

/-- Outcome of the booking POST to the backend: ok, or a thrown error
(transport failure or a non-ok response mapped by the throw at line
180). -/
inductive CommitResult where
  | ok
  | err (msg : String)
deriving DecidableEq

/-- The TypeError message a JavaScript engine raises when reading .id of
null (only reachable if handleBooking ran without a selection, which the
rendering never does). -/
def nullIdError : String := "Cannot read properties of null (reading 'id')"

/-- handleBooking (lines 165-197) as a state transformer given the
commit and notification outcomes; also returns the notification requests
issued.  On commit success sendEmails runs (it never throws), then the
interval is cleared and bookingComplete is set; a thrown commit error is
caught and routed to errorMessage; the finally block resets isLoading.
The clearInterval call itself only affects the timer, modelled at the
session layer below; the refreshInterval state variable is never
changed. -/
def handleBooking (env : DateEnv) (commit : CommitResult)
    (notif : NotifyOutcome) (s : CState) : CState × List EmailMsg :=
  match s.selectedSlot with
  | none =>
      ({ s with errorMessage := "Error booking appointment: " ++ nullIdError,
                isLoading := false }, [])
  | some sl =>
      match commit with
      | .ok =>
          let sent := sendEmails env s.userInfo sl notif
          ({ s with bookingComplete := true, isLoading := false }, sent.1)
      | .err m =>
          ({ s with errorMessage := "Error booking appointment: " ++ m,
                    isLoading := false }, [])

/-- The browser's constraint validation induced by the three required
inputs of the booking form (lines 342-376): the submit event — and hence
handleBooking — fires only when every required field is non-empty. -/
def requiredFilled (u : UserInfo) : Bool :=
  !u.firstName.isEmpty && !u.lastName.isEmpty && !u.email.isEmpty

/-- Submitting the booking form: when constraint validation passes the
submit handler handleBooking runs and the booking request is issued
(flag true); otherwise the browser blocks the submit event and nothing
happens (flag false, state untouched). -/
def submitBookingForm (env : DateEnv) (commit : CommitResult)
    (notif : NotifyOutcome) (s : CState) : CState × Bool :=
  if requiredFilled s.userInfo then ((handleBooking env commit notif s).1, true)
  else (s, false)

/-- The screens the component can render (lines 199-401), each carrying
the data that screen displays. -/
inductive Screen where
  | loading
  | confirmed (slot : Option Slot) (info : UserInfo)
  | errorScreen (msg : String)
  | noSlots
  | slotList (slots : List Slot)
  | bookingForm (slot : Slot) (info : UserInfo)
deriving DecidableEq

/-- The component's render function: the if-chain at lines 200, 212, 257
and 270, then the selectedSlot ternary of the main interface. -/
def renderState (s : CState) : Screen :=
  if s.isLoading && !s.bookingComplete then .loading
  else if s.bookingComplete then .confirmed s.selectedSlot s.userInfo
  else if !s.errorMessage.isEmpty then .errorScreen s.errorMessage
  else if s.availableSlots.isEmpty then .noSlots
  else
    match s.selectedSlot with
    | none => .slotList s.availableSlots
    | some sl => .bookingForm sl s.userInfo

/-- The session layer: the component state together with the set of
interval timers actually running and the value of refreshInterval that
the effect cleanup closure captured when the effect ran. -/
structure Session where
  comp : CState
  active : List Nat
  cleanupCapture : Option Nat
deriving DecidableEq

/-- The initial userInfo (lines 7-12). -/
def initialUserInfo : UserInfo :=
  { firstName := "", lastName := "", email := "", isScholarship := false }

/-- The initial React state (lines 5-16). -/
def initialCState : CState :=
  { availableSlots := [], selectedSlot := none, userInfo := initialUserInfo,
    bookingComplete := false, isLoading := true, errorMessage := "",
    refreshInterval := none }

/-- A fresh session before the mount effect runs. -/
def initialSession : Session :=
  { comp := initialCState, active := [], cleanupCapture := none }

/-- The guarded clearInterval(refreshInterval) call: JavaScript
truthiness skips the call when the handle is null (or the id 0). -/
def clearIntervalOp (h : Option Nat) (act : List Nat) : List Nat :=
  match h with
  | none => act
  | some t => if t = 0 then act else act.erase t

/-- The mount effect (lines 67-80): fetch with loading, start the
interval with fresh id t, store it via setRefreshInterval.  Crucially,
the cleanup closure returned by the effect closes over the
refreshInterval binding of the render in which the effect was created —
the value before setRefreshInterval took effect, i.e. the initial
null — because the effect has an empty dependency array and never
re-runs. -/
def mountEffect (dp : String → Int) (res : FetchResult) (t : Nat)
    (w : Session) : Session :=
  { comp := { fetchAvailableSlots dp true res w.comp with refreshInterval := some t },
    active := w.active ++ [t],
    cleanupCapture := w.comp.refreshInterval }

/-- Component teardown: React runs the effect cleanup, which executes
if (refreshInterval) clearInterval(refreshInterval) on the captured
value. -/
def unmountCleanup (w : Session) : Session :=
  { w with active := clearIntervalOp w.cleanupCapture w.active }

/-- handleBooking at the session layer: the state transition of
handleBooking, plus the timer effect of its clearInterval call, which
runs exactly when the commit succeeded (and reads the current, post-
re-render refreshInterval state). -/
def sessionHandleBooking (env : DateEnv) (commit : CommitResult)
    (notif : NotifyOutcome) (w : Session) : Session × List EmailMsg :=
  let r := handleBooking env commit notif w.comp
  let act :=
    match w.comp.selectedSlot, commit with
    | some _, .ok => clearIntervalOp w.comp.refreshInterval w.active
    | _, _ => w.active
  ({ comp := r.1, active := act, cleanupCapture := w.cleanupCapture }, r.2)

end ClientInterface

namespace ClientInterface.Part000

open ClientInterface

/-- fetchAvailableSlots of the part_000 variant (lines 41-73): identical
to the src/src variant except that the decoded rows are first filtered
to status Available before sorting. -/
def fetchAvailableSlots (dp : String → Int) (showLoading : Bool)
    (res : FetchResult) (s : CState) : CState :=
  let s1 := if showLoading then { s with isLoading := true } else s
  let s2 :=
    match res with
    | .ok data =>
        { s1 with availableSlots :=
            sortSlots dp (data.filter fun sl => sl.status == "Available") }
    | .err m => { s1 with errorMessage := "Error loading available slots: " ++ m }
  if showLoading then { s2 with isLoading := false } else s2

end ClientInterface.Part000

namespace ClientInterface

/-! ### Order-theoretic facts about the sort comparator -/

/-- Characterization of a nonpositive comparator value: strictly earlier
date, or equal date and lexicographically nonlater time. -/
lemma slotCmp_le_iff (dp : String → Int) (a b : Slot) :
    slotCmp dp a b ≤ 0 ↔
      dp a.date < dp b.date ∨ (dp a.date = dp b.date ∧ a.time ≤ b.time) := by
  simp only [slotCmp, strCmpInt]
  split_ifs with hd h1 h2
  · constructor
    · intro h; exact Or.inl (by omega)
    · intro h; rcases h with h | ⟨h, -⟩ <;> omega
  · constructor
    · intro _; exact Or.inr ⟨by omega, le_of_lt h1⟩
    · intro _; decide
  · constructor
    · intro h; exact absurd h (by decide)
    · intro h
      rcases h with h | ⟨-, h⟩
      · omega
      · exact absurd h2 (not_lt.mpr h)
  · constructor
    · intro _; exact Or.inr ⟨by omega, not_lt.mp h2⟩
    · intro _; decide

/-- The comparator ordering is transitive. -/
lemma slotLE_trans (dp : String → Int) :
    ∀ a b c : Slot, slotLE dp a b = true → slotLE dp b c = true →
      slotLE dp a c = true := by
  intro a b c hab hbc
  have h1 := (slotCmp_le_iff dp a b).mp (of_decide_eq_true hab)
  have h2 := (slotCmp_le_iff dp b c).mp (of_decide_eq_true hbc)
  unfold slotLE
  apply decide_eq_true
  apply (slotCmp_le_iff dp a c).mpr
  rcases h1 with h1 | ⟨e1, l1⟩ <;> rcases h2 with h2 | ⟨e2, l2⟩
  · exact Or.inl (h1.trans h2)
  · exact Or.inl (by omega)
  · exact Or.inl (by omega)
  · exact Or.inr ⟨e1.trans e2, l1.trans l2⟩

/-- The comparator ordering is total. -/
lemma slotLE_total (dp : String → Int) :
    ∀ a b : Slot, (slotLE dp a b || slotLE dp b a) = true := by
  intro a b
  rw [Bool.or_eq_true]
  unfold slotLE
  simp only [decide_eq_true_eq]
  rw [slotCmp_le_iff, slotCmp_le_iff]
  rcases lt_trichotomy (dp a.date) (dp b.date) with h | h | h
  · exact Or.inl (Or.inl h)
  · rcases le_total a.time b.time with ht | ht
    · exact Or.inl (Or.inr ⟨h, ht⟩)
    · exact Or.inr (Or.inr ⟨h.symm, ht⟩)
  · exact Or.inr (Or.inl h)

/-! ### Facts about the JavaScript string helpers -/

/-- The character list of an appended string. -/
lemma append_data (a b : String) : (a ++ b).data = a.data ++ b.data := rfl

/-- Appending AM or PM makes hasAmPm hold. -/
lemma hasAmPm_append (q p : String) (hp : p = "AM" ∨ p = "PM") :
    hasAmPm (q ++ p) = true := by
  have hdata : ∀ r : String, (jsToUpper (q ++ r)).data
      = q.data.map Char.toUpper ++ r.data.map Char.toUpper := by
    intro r
    show (q ++ r).data.map Char.toUpper = _
    rw [append_data, List.map_append]
  unfold hasAmPm jsIncludes
  rw [Bool.or_eq_true]
  rcases hp with h | h <;> subst h
  · refine Or.inl (decide_eq_true ?_)
    rw [hdata]
    have hAM : ("AM").data.map Char.toUpper = ("AM").data := by decide
    rw [hAM]
    exact (List.suffix_append _ _).isInfix
  · refine Or.inr (decide_eq_true ?_)
    rw [hdata]
    have hPM : ("PM").data.map Char.toUpper = ("PM").data := by decide
    rw [hPM]
    exact (List.suffix_append _ _).isInfix

/-- A string with a nonempty appended tail is nonempty. -/
lemma ne_empty_right (q p : String) (hp : p.data ≠ []) : q ++ p ≠ "" := by
  intro h
  have hd : (q ++ p).data = ("" : String).data := congrArg String.data h
  rw [append_data] at hd
  exact hp (List.append_eq_nil.mp hd).2

/-- jsAmPm always yields AM or PM. -/
lemma jsAmPm_cases (h : Option Int) : jsAmPm h = "AM" ∨ jsAmPm h = "PM" := by
  unfold jsAmPm
  match h with
  | none => exact Or.inl rfl
  | some v =>
    by_cases h12 : 12 ≤ v
    · exact Or.inr (if_pos h12)
    · exact Or.inl (if_neg h12)

/-- A nonempty string already containing AM or PM is a fixed point of
formatTimeToStandard. -/
lemma formatTimeToStandard_fixed (r : String) (hne : r ≠ "")
    (h : hasAmPm r = true) : formatTimeToStandard (some r) = r := by
  simp only [formatTimeToStandard]
  rw [if_neg hne, if_pos h]

end ClientInterface

namespace ClientInterface

/-! ### Concrete fixtures used by witnesses and counterexamples -/

/-- A date-parsing environment mapping every date string to epoch 0
(dates are irrelevant to the scenarios using it). -/
def dp0 : String → Int := fun _ => 0

/-- An available slot as in the happy-path scenario of the spec. -/
def slotA : Slot :=
  { id := "1", date := "2024-05-01", time := "09:00", status := "Available" }

/-- A booked slot, used to exercise the status filter. -/
def slotB : Slot :=
  { id := "2", date := "2024-05-01", time := "10:00", status := "Booked" }

/-- A slot that never appears in any snapshot of the scenarios. -/
def slotX : Slot :=
  { id := "42", date := "2024-06-01", time := "10:00", status := "Available" }

/-- The booker of the happy-path scenario. -/
def anaInfo : UserInfo :=
  { firstName := "Ana", lastName := "Lee", email := "a@x.com", isScholarship := false }

/-- The same booker with the scholarship/zoom box checked. -/
def anaScholar : UserInfo :=
  { anaInfo with isScholarship := true }

/-- A concrete locale environment for the notification fixtures. -/
def env0 : DateEnv :=
  { dayOfWeek := fun _ => "Wednesday",
    formattedDate := fun _ => "Wednesday, May 1, 2024",
    monthName := fun _ => "May",
    dayNum := fun _ => 1 }

/-- A state in the middle of a booking: snapshot loaded, slotA selected,
the form filled in, the refresh interval running. -/
def browsingState : CState :=
  { availableSlots := [slotA], selectedSlot := some slotA, userInfo := anaInfo,
    bookingComplete := false, isLoading := false, errorMessage := "",
    refreshInterval := some 1 }

/-- browsingState with the first name cleared. -/
def emptyNameState : CState :=
  { browsingState with userInfo := { anaInfo with firstName := "" } }

/-! ### Claim theorems -/

/-- C10: formatTimeToStandard is idempotent — applying it to its own
output returns that output unchanged — and it maps missing or empty
input to the empty string. -/
theorem formatTimeToStandard_idempotent (t : Option String) :
    formatTimeToStandard (some (formatTimeToStandard t)) = formatTimeToStandard t ∧
    formatTimeToStandard none = "" ∧ formatTimeToStandard (some "") = "" := by
  refine ⟨?_, rfl, rfl⟩
  cases t with
  | none => rfl
  | some s =>
    by_cases hs : s = ""
    · subst hs; rfl
    · by_cases ha : hasAmPm s = true
      · have h1 : formatTimeToStandard (some s) = s := by
          simp only [formatTimeToStandard]
          rw [if_neg hs, if_pos ha]
        rw [h1]
        exact h1
      · have h1 : formatTimeToStandard (some s) =
            (toString (jsHour12 (jsParseInt ((s.splitOn ":").headD ""))) ++ ":" ++
             jsStr ((s.splitOn ":").get? 1) ++ " ") ++
            jsAmPm (jsParseInt ((s.splitOn ":").headD "")) := by
          simp only [formatTimeToStandard]
          rw [if_neg hs, if_neg ha]
        have hcase := jsAmPm_cases (jsParseInt ((s.splitOn ":").headD ""))
        rw [h1]
        refine formatTimeToStandard_fixed _ (ne_empty_right _ _ ?_) (hasAmPm_append _ _ hcase)
        rcases hcase with h | h <;> rw [h] <;> decide

/-- C4: every snapshot a successful refresh stores is sorted by date
ascending and, for equal dates, by time ascending under lexicographic
string comparison of the raw time field. -/
theorem fetchAvailableSlots_sorted (dp : String → Int) (showLoading : Bool)
    (data : List Slot) (s : CState) :
    ((fetchAvailableSlots dp showLoading (FetchResult.ok data) s).availableSlots).Pairwise
      (fun a b => dp a.date < dp b.date ∨ (dp a.date = dp b.date ∧ a.time ≤ b.time)) := by
  have hs := @List.sorted_mergeSort Slot (slotLE dp) (slotLE_trans dp) (slotLE_total dp) data
  have he : (fetchAvailableSlots dp showLoading (FetchResult.ok data) s).availableSlots
      = data.mergeSort (slotLE dp) := by cases showLoading <;> rfl
  rw [he]
  exact hs.imp fun hab => (slotCmp_le_iff dp _ _).mp (of_decide_eq_true hab)

/-- C3: in the store-backed variant (part_000), every slot of the
snapshot stored by a successful refresh has status Available — the rows
are filtered locally before the snapshot is stored. -/
theorem snapshot_all_available (dp : String → Int) (showLoading : Bool)
    (data : List Slot) (s : CState) :
    ∀ sl ∈ (Part000.fetchAvailableSlots dp showLoading (FetchResult.ok data) s).availableSlots,
      sl.status = "Available" := by
  intro sl hmem
  have he : (Part000.fetchAvailableSlots dp showLoading (FetchResult.ok data) s).availableSlots
      = (data.filter fun x => x.status == "Available").mergeSort (slotLE dp) := by
    cases showLoading <;> rfl
  rw [he] at hmem
  have hmem2 : sl ∈ data.filter fun x => x.status == "Available" :=
    (List.mergeSort_perm _ _).mem_iff.mp hmem
  exact eq_of_beq (List.mem_filter.mp hmem2).2

/-- Witness for C3: with rows slotB (Booked) and slotA (Available), the
stored snapshot contains slotA and the theorem yields its status. -/
theorem snapshot_all_available_witness :
    slotA ∈ (Part000.fetchAvailableSlots dp0 true (FetchResult.ok [slotB, slotA])
        initialCState).availableSlots
      ∧ slotA.status = "Available" := by
  have hmem : slotA ∈ (Part000.fetchAvailableSlots dp0 true (FetchResult.ok [slotB, slotA])
      initialCState).availableSlots := by
    have he : (Part000.fetchAvailableSlots dp0 true (FetchResult.ok [slotB, slotA])
        initialCState).availableSlots
        = ([slotB, slotA].filter fun x => x.status == "Available").mergeSort (slotLE dp0) := rfl
    have hf : [slotB, slotA].filter (fun x => x.status == "Available") = [slotA] := by decide
    rw [he, hf, List.mergeSort_singleton]
    exact List.mem_singleton.mpr rfl
  exact ⟨hmem, snapshot_all_available dp0 true [slotB, slotA] initialCState slotA hmem⟩

end ClientInterface

namespace ClientInterface

/-- C8: a failed refresh (transport error, non-ok response or decode
failure) leaves the existing snapshot untouched and raises the fetch
error into the error message that drives the error-display state, for
both the foreground and the background mode. -/
theorem fetch_failure_preserves_snapshot (dp : String → Int)
    (showLoading : Bool) (m : String) (s : CState) :
    (fetchAvailableSlots dp showLoading (FetchResult.err m) s).availableSlots
        = s.availableSlots ∧
    (fetchAvailableSlots dp showLoading (FetchResult.err m) s).errorMessage
        = "Error loading available slots: " ++ m ∧
    (fetchAvailableSlots dp showLoading (FetchResult.err m) s).selectedSlot
        = s.selectedSlot ∧
    (fetchAvailableSlots dp showLoading (FetchResult.err m) s).userInfo
        = s.userInfo := by
  cases showLoading <;> exact ⟨rfl, rfl, rfl, rfl⟩

/-- Counterexample to C7: starting from a state whose screen is the
booking form with slotA selected, a failed background refresh
(showLoading = false) sets the error message, and the rendered screen
becomes the error screen — the displayed screen is not unchanged. -/
theorem background_poll_failure_changes_screen :
    renderState browsingState = Screen.bookingForm slotA anaInfo ∧
    renderState (fetchAvailableSlots dp0 false
        (FetchResult.err "Failed to fetch available slots") browsingState)
      = Screen.errorScreen "Error loading available slots: Failed to fetch available slots" ∧
    Screen.errorScreen "Error loading available slots: Failed to fetch available slots"
      ≠ Screen.bookingForm slotA anaInfo := by
  refine ⟨rfl, rfl, ?_⟩
  decide

/-- C7 amended: a background refresh (showLoading = false) never toggles
the loading indicator and, when it fails, leaves the snapshot, the
selection, the form contents and the booking flag unchanged — but it
does set the error message, which routes the display to the error
screen. -/
theorem background_poll_failure_preserves_state (dp : String → Int)
    (m : String) (s : CState) :
    (fetchAvailableSlots dp false (FetchResult.err m) s).isLoading = s.isLoading ∧
    (fetchAvailableSlots dp false (FetchResult.err m) s).availableSlots = s.availableSlots ∧
    (fetchAvailableSlots dp false (FetchResult.err m) s).selectedSlot = s.selectedSlot ∧
    (fetchAvailableSlots dp false (FetchResult.err m) s).userInfo = s.userInfo ∧
    (fetchAvailableSlots dp false (FetchResult.err m) s).bookingComplete = s.bookingComplete ∧
    (fetchAvailableSlots dp false (FetchResult.err m) s).refreshInterval = s.refreshInterval ∧
    (fetchAvailableSlots dp false (FetchResult.err m) s).errorMessage
      = "Error loading available slots: " ++ m :=
  ⟨rfl, rfl, rfl, rfl, rfl, rfl, rfl⟩

/-- Counterexample to C9: handleSelectSlot accepts slotX even though
slotX is not in the current snapshot; no precondition check exists. -/
theorem handleSelectSlot_no_precondition :
    (handleSelectSlot slotX browsingState).selectedSlot = some slotX ∧
    slotX ∉ browsingState.availableSlots := by
  refine ⟨rfl, ?_⟩
  decide

/-- C9 amended: selections made through the rendered slot list do come
from the current snapshot — the only call site passes an element of
availableSlots — but handleSelectSlot itself performs no precondition
check. -/
theorem ui_selection_from_snapshot (s : CState) (i : Nat) (sl : Slot)
    (h : s.availableSlots.get? i = some sl) :
    (selectSlotFromList s i).selectedSlot = some sl ∧ sl ∈ s.availableSlots := by
  constructor
  · unfold selectSlotFromList
    rw [h]
    rfl
  · exact List.get?_mem h

/-- Witness for C9's amended theorem at the browsing fixture. -/
theorem ui_selection_from_snapshot_witness :
    (selectSlotFromList browsingState 0).selectedSlot = some slotA ∧
    slotA ∈ browsingState.availableSlots :=
  ui_selection_from_snapshot browsingState 0 slotA rfl

/-- C1: submitting the booking form with any required field empty is
blocked by the form-level validation; handleBooking never runs, no
commit request is issued, and the state is unchanged. -/
theorem submit_empty_field_no_commit (env : DateEnv) (commit : CommitResult)
    (notif : NotifyOutcome) (s : CState)
    (h : s.userInfo.firstName = "" ∨ s.userInfo.lastName = "" ∨ s.userInfo.email = "") :
    submitBookingForm env commit notif s = (s, false) := by
  have hreq : requiredFilled s.userInfo = false := by
    rcases h with h | h | h <;>
      simp [requiredFilled, h, show ("" : String).isEmpty = true from rfl]
  unfold submitBookingForm
  rw [hreq]
  rfl

/-- Witness for C1: with the first name empty, the submission at the
fixture state is blocked and the commit outcome is never consulted. -/
theorem submit_empty_field_no_commit_witness :
    submitBookingForm env0 CommitResult.ok NotifyOutcome.delivered emptyNameState
      = (emptyNameState, false) :=
  submit_empty_field_no_commit env0 CommitResult.ok NotifyOutcome.delivered
    emptyNameState (Or.inl rfl)

/-- C5: when the commit returns ok, the booking is confirmed whatever
the notification outcome: bookingComplete is set, the committed slot,
the booker info and the error message are untouched, and the rendered
screen is the confirmation screen with that slot and booker. -/
theorem commit_ok_confirmed_despite_notify_failure (env : DateEnv)
    (notif : NotifyOutcome) (s : CState) (sl : Slot)
    (h : s.selectedSlot = some sl) :
    (handleBooking env CommitResult.ok notif s).1.bookingComplete = true ∧
    (handleBooking env CommitResult.ok notif s).1.selectedSlot = some sl ∧
    (handleBooking env CommitResult.ok notif s).1.userInfo = s.userInfo ∧
    (handleBooking env CommitResult.ok notif s).1.errorMessage = s.errorMessage ∧
    renderState (handleBooking env CommitResult.ok notif s).1
      = Screen.confirmed (some sl) s.userInfo := by
  have hb : (handleBooking env CommitResult.ok notif s).1
      = { s with bookingComplete := true, isLoading := false } := by
    unfold handleBooking
    rw [h]
  rw [hb]
  have hr : renderState { s with bookingComplete := true, isLoading := false }
      = Screen.confirmed s.selectedSlot s.userInfo := rfl
  rw [hr, h]
  exact ⟨rfl, rfl, rfl, rfl, rfl⟩

/-- Witness for C5 at the browsing fixture, with the second notification
failing. -/
theorem commit_ok_confirmed_witness :
    (handleBooking env0 CommitResult.ok (NotifyOutcome.failSecond "smtp down")
        browsingState).1.bookingComplete = true :=
  (commit_ok_confirmed_despite_notify_failure env0
    (NotifyOutcome.failSecond "smtp down") browsingState slotA rfl).1

/-- Counterexample to C6: the isScholarship preference does not select
the variant of the booker's confirmation — the notification requests
built by sendEmails are identical whether the flag is set or not (the
client email's type field is always the literal scholarship). -/
theorem sendEmails_ignores_isScholarship :
    anaInfo.isScholarship ≠ anaScholar.isScholarship ∧
    sendEmailsMessages env0 anaInfo slotA = sendEmailsMessages env0 anaScholar slotA := by
  refine ⟨?_, rfl⟩
  decide

/-- C6 amended: after a successful commit (and with no transport
failure) exactly two notifications are issued, both to the fixed script
endpoint: first the owner alert (type owner), then the booker's
confirmation addressed to the booker's email — whose variant is the
fixed type scholarship, independent of the isScholarship flag. -/
theorem sendEmails_two_messages (env : DateEnv) (u : UserInfo) (sl : Slot) :
    (sendEmailsMessages env u sl).length = 2 ∧
    ((sendEmailsMessages env u sl).headD default).url = googleScriptUrl ∧
    ((sendEmailsMessages env u sl).getD 1 default).url = googleScriptUrl ∧
    ("type", "owner") ∈ ((sendEmailsMessages env u sl).headD default).payload ∧
    ("type", "scholarship") ∈ ((sendEmailsMessages env u sl).getD 1 default).payload ∧
    ("to_email", u.email) ∈ ((sendEmailsMessages env u sl).getD 1 default).payload := by
  refine ⟨rfl, rfl, rfl, ?_, ?_, ?_⟩
  · exact List.mem_cons_self _ _
  · exact List.mem_cons_self _ _
  · exact List.mem_cons_of_mem _ (List.mem_cons_of_mem _ (List.mem_cons_self _ _))

/-- C2: after mounting (which starts interval 1) and then tearing the
component down without booking, interval 1 is still active: the cleanup
closure captured the initial null refreshInterval, so clearInterval
never runs at teardown and the timer is left running. -/
theorem unmount_leaves_interval_active :
    (unmountCleanup (mountEffect dp0 (FetchResult.ok []) 1 initialSession)).active = [1] ∧
    (unmountCleanup (mountEffect dp0 (FetchResult.ok []) 1 initialSession)).cleanupCapture
      = none ∧
    (sessionHandleBooking env0 CommitResult.ok NotifyOutcome.delivered
        { comp := browsingState, active := [1], cleanupCapture := none }).1.active = [] := by
  exact ⟨rfl, rfl, rfl⟩

end ClientInterface
